import Mathlib

/-!
Shallow embedding of the `auth` package of cmelbye/firebase-go: the
self-refreshing public-key cache (`fetchCertLoop` / `fetchCerts`) and the
token verifier (`Verify`).

Modelling conventions:
* `time.Time` instants and `time.Duration` values are integers.  A
  `time.Duration` is an `Int64` count of nanoseconds; arithmetic on it wraps
  modulo 2^64 into the signed range, which we make explicit with `int64wrap`.
* `*rsa.PublicKey` values are opaque and modelled as `Nat` identifiers.
* JSON claim values (`interface{}` in Go) are modelled by the variant type
  `JVal`; a Go type assertion `x.(string)` becomes a match on `JVal.str`.
  Claim timestamps are integer seconds, as produced by the tokens in scope.
* The external JOSE engine (`jws.ParseCompact`, `tok.Verify`) is a
  collaborator: `Verify` receives the engine's parse result
  (`Except String Tok`) and each `Tok` carries the engine's signature
  check as a function of the resolved key.
* Go errors built with `errors.New` / `fmt.Errorf` carry only a message
  string (`GoErr.msg`); `ctx.Err()` is the distinguishable sentinel
  `GoErr.ctxCanceled`.
-/

/-- A JSON value as decoded into Go's `interface{}` — only the shapes the
verifier inspects are distinguished. -/
inductive JVal where
  | str (s : String)
  | num (n : Int)
  | boolean (b : Bool)
  | other
deriving DecidableEq, Repr

/-- Go map lookup `m[k]` on an association-list model of a string-keyed map. -/
def mapGet (m : List (String × JVal)) (k : String) : Option JVal :=
  (m.find? (fun p => p.1 == k)).map (fun p => p.2)

/-- The Go type assertion `v.(string)` applied to an optional claim value. -/
def asStr (v : Option JVal) : Option String :=
  match v with
  | some (JVal.str s) => some s
  | _ => none

/-- The Go type assertion `v.(bool)` applied to an optional claim value. -/
def asBool (v : Option JVal) : Option Bool :=
  match v with
  | some (JVal.boolean b) => some b
  | _ => none

/-- Numeric claim extraction, as in the JOSE library's `Claims.GetTime`
(`exp` / `iat` are epoch timestamps; non-numeric values are "not ok"). -/
def asNum (v : Option JVal) : Option Int :=
  match v with
  | some (JVal.num n) => some n
  | _ => none

/-- Wrap an integer into the signed 64-bit range, the semantics of Go's
`int64` (and hence `time.Duration`) arithmetic. -/
def int64wrap (z : Int) : Int :=
  (z + 2 ^ 63) % 2 ^ 64 - 2 ^ 63

/-- Go `strings.Split(s, ",")`, as character-list recursion. -/
def splitCommaAux : List Char → List Char → List (List Char)
  | [], acc => [acc.reverse]
  | c :: cs, acc =>
    if c = ',' then acc.reverse :: splitCommaAux cs []
    else splitCommaAux cs (c :: acc)

/-- Go `strings.Split(s, ",")` on strings. -/
def goSplitComma (s : String) : List String :=
  (splitCommaAux s.data []).map String.mk

/-- Go `strings.TrimSpace`: strip leading and trailing whitespace. -/
def goTrim (s : String) : String :=
  String.mk (((s.data.dropWhile Char.isWhitespace).reverse.dropWhile
    Char.isWhitespace).reverse)

/-- Go `strings.HasPrefix s p`. -/
def goHasPfx (s p : String) : Bool :=
  s.data.take p.data.length == p.data

/-- Go `s[n:]` for an ASCII-prefixed string, dropping `n` characters. -/
def goDrop (s : String) (n : Nat) : String :=
  String.mk (s.data.drop n)

/-- Value of a list of decimal digit characters. -/
def digitsVal (l : List Char) : Nat :=
  l.foldl (fun acc c => acc * 10 + (c.toNat - 48)) 0

/-- Go `strconv.Atoi`: optional sign, at least one decimal digit, nothing
else, and the value must fit in a 64-bit `int` (out-of-range input returns
an error, which the caller of the model sees as `none`). -/
def goAtoi (s : String) : Option Int :=
  let core : String → Option Nat := fun d =>
    if d.data ≠ [] ∧ d.data.all Char.isDigit then some (digitsVal d.data)
    else none
  let signed : Option Int :=
    if goHasPfx s "-" then (core (goDrop s 1)).map (fun n => -(n : Int))
    else if goHasPfx s "+" then (core (goDrop s 1)).map (fun n => (n : Int))
    else (core s).map (fun n => (n : Int))
  match signed with
  | some z => if -(2 ^ 63) ≤ z ∧ z < 2 ^ 63 then some z else none
  | none => none

/-- One nanosecond-count second, Go's `time.Second`. -/
def goSecond : Int := 1000000000

/-- The fallback refresh interval: `10 * time.Minute` in nanoseconds. -/
def defaultExpiry : Int := 600 * goSecond

/-- The `for _, part := range parts` loop of `fetchCerts`: trim each part,
and on a `max-age=` part either update `expiry` with
`time.Duration(seconds) * time.Second` (64-bit wrap) or `break` on an
`Atoi` error. -/
def maxAgeLoop : List String → Int → Int
  | [], expiry => expiry
  | part :: rest, expiry =>
    let part := goTrim part
    if goHasPfx part "max-age=" then
      match goAtoi (goDrop part 8) with
      | none => expiry
      | some seconds => maxAgeLoop rest (int64wrap (seconds * goSecond))
    else maxAgeLoop rest expiry

/-- The expiry computation of `fetchCerts`: split the `Cache-Control` header
on commas, run the directive loop starting from the 10-minute default, and
reset any negative result to the default. -/
def parseMaxAge (cacheControl : String) : Int :=
  let expiry := maxAgeLoop (goSplitComma cacheControl) defaultExpiry
  if expiry < 0 then defaultExpiry else expiry

/-- The certificate-parsing loop of `fetchCerts`: parse every PEM value with
the external engine (`crypto.ParseRSAPublicKeyFromPEM`, modelled by `pem`);
the first failure aborts the whole fetch with an error. -/
def parseAllCerts (pem : String → Option Nat) :
    List (String × String) → Except Unit (List (String × Nat))
  | [] => Except.ok []
  | (kid, cert) :: rest =>
    match pem cert with
    | none => Except.error ()
    | some pk =>
      match parseAllCerts pem rest with
      | Except.error e => Except.error e
      | Except.ok l => Except.ok ((kid, pk) :: l)

/-- Input to one `fetchCerts` call: `none` models a transport error from
`client.Do`; otherwise the JSON-decode outcome of the body (`Except.error`
models a decode failure) together with the `Cache-Control` header. -/
def FetchResp := Option (Except Unit (List (String × String)) × String)

/-- `fetchCerts`: returns the parsed key set and the next refresh interval
in nanoseconds, or an error (in which case Go returns a zero duration). -/
def fetchCerts (pem : String → Option Nat) (resp : FetchResp) :
    Except Unit (List (String × Nat) × Int) :=
  match resp with
  | none => Except.error ()
  | some (body, cacheControl) =>
    match body with
    | Except.error _ => Except.error ()
    | Except.ok rawCerts =>
      match parseAllCerts pem rawCerts with
      | Except.error _ => Except.error ()
      | Except.ok parsed => Except.ok (parsed, parseMaxAge cacheControl)

/-- The mutable state of the cache owned by `fetchCertLoop`: the published
snapshot `certs` (the empty list models both a nil and an empty map), whether
`haveCerts` has been closed, the loop-local `firstFetch` flag, and the
loop-local `failExpiry` back-off duration (nanoseconds, `int64`). -/
structure CacheState where
  certs : List (String × Nat)
  signaled : Bool
  firstFetch : Bool
  failExpiry : Int
deriving DecidableEq, Repr

/-- The state at `NewVerifier`: no certs, `haveCerts` open, `firstFetch`
true, `failExpiry = 1 * time.Second`. -/
def initState : CacheState :=
  { certs := [], signaled := false, firstFetch := true, failExpiry := goSecond }

/-- One iteration of `fetchCertLoop` given the result of its `fetchCerts`
call: returns the successor state and the duration handed to `time.After`.
On success the snapshot is replaced unconditionally and `haveCerts` is closed
the first time the fetched set is non-empty; on failure with no certs present
the wait is the current `failExpiry`, which then doubles (64-bit wrap); on
failure with certs present the wait is the zero duration returned by the
failed `fetchCerts`. -/
def loopStep (s : CacheState) (r : Except Unit (List (String × Nat) × Int)) :
    CacheState × Int :=
  match r with
  | Except.ok (certs, expiry) =>
    if s.firstFetch ∧ certs.length > 0 then
      ({ s with certs := certs, signaled := true, firstFetch := false }, expiry)
    else
      ({ s with certs := certs }, expiry)
  | Except.error _ =>
    if s.certs.length > 0 then
      (s, 0)
    else
      ({ s with failExpiry := int64wrap (2 * s.failExpiry) }, s.failExpiry)

/-- Run the refresh loop over a list of fetch outcomes. -/
def run (s : CacheState) : List (Except Unit (List (String × Nat) × Int)) → CacheState
  | [] => s
  | r :: rs => run (loopStep s r).1 rs

/-- The successive `time.After` durations of the refresh loop over a list of
fetch outcomes. -/
def runDelays (s : CacheState) :
    List (Except Unit (List (String × Nat) × Int)) → List Int
  | [] => []
  | r :: rs => (loopStep s r).2 :: runDelays (loopStep s r).1 rs

/-- A cache state the refresh loop can actually be in. -/
def Reachable (s : CacheState) : Prop :=
  ∃ l, run initState l = s

/-- A Go error value as the `auth` package produces them: either a bare
message string built with `errors.New` / `fmt.Errorf`, or the context's
sentinel error returned by `ctx.Err()` when a wait is cancelled. -/
inductive GoErr where
  | msg (s : String)
  | ctxCanceled
deriving DecidableEq, Repr

/-- The `User` identity returned on success, fields as in the source. -/
structure User where
  ID : String
  SignInProvider : String
  EmailVerified : Bool
  Email : String
deriving DecidableEq, Repr

/-- The result of `jws.ParseCompact` on a token: the protected header, the
payload (already `nil` — modelled `none` — when the `interface{}` payload is
not a `map[string]interface{}`), and the engine's signature check
`tok.Verify(key, RS256)` as a function of the resolved key (`none` = valid,
`some m` = failure with message `m`). -/
structure Tok where
  header : List (String × JVal)
  payload : Option (List (String × JVal))
  sigCheck : Nat → Option String

/-- The outcome of the `select` in `Verify` when `haveCerts` is not yet
closed at the time of the wait: either the caller's context is cancelled
first, or the first load completes first and publishes a snapshot. -/
inductive WaitOutcome where
  | canceled
  | loaded (certs : List (String × Nat))

/-- What a `Verify` call observes of the cache: the snapshot read under the
first `RLock`, whether `haveCerts` is already closed at that point, and —
should the call have to block — the outcome of the wait. -/
structure CacheView where
  certs : List (String × Nat)
  haveCertsClosed : Bool
  wait : WaitOutcome

/-- The cache-resolution block of `Verify`: if the snapshot is empty the
call releases the lock and blocks on `select { ctx.Done / haveCerts }`
(a closed `haveCerts` makes that select return at once), then re-reads the
snapshot; otherwise it proceeds with the snapshot it already holds. -/
def resolveCerts (cv : CacheView) : Except GoErr (List (String × Nat)) :=
  if cv.certs.length = 0 then
    if cv.haveCertsClosed then Except.ok cv.certs
    else
      match cv.wait with
      | WaitOutcome.canceled => Except.error GoErr.ctxCanceled
      | WaitOutcome.loaded certs => Except.ok certs
  else Except.ok cv.certs

/-- Snapshot lookup `v.certs[kid]`. -/
def lookupKey (certs : List (String × Nat)) (kid : String) : Option Nat :=
  (certs.find? (fun p => p.1 == kid)).map (fun p => p.2)

/-- Go's `%q` verb on the plain strings that appear in claims (escaping of
special characters is not modelled; the tokens in scope contain none). -/
def goQuote (s : String) : String := "\"" ++ s ++ "\""

/-- The claims-validation and identity-construction tail of `Verify`
(everything after the signature check), parameterised by the wall-clock
instant `now` captured once by `time.Now()`. -/
def verifyClaims (projectID issuer : String) (now : Int)
    (claims : List (String × JVal)) : Except GoErr User :=
  match asNum (mapGet claims "exp") with
  | none => Except.error (GoErr.msg "auth: expired token")
  | some exp =>
    if exp < now then Except.error (GoErr.msg "auth: expired token")
    else
      match asNum (mapGet claims "iat") with
      | none => Except.error (GoErr.msg "auth: token issued in the future")
      | some iat =>
        if now < iat then
          Except.error (GoErr.msg "auth: token issued in the future")
        else
          let aud := (asStr (mapGet claims "aud")).getD ""
          if (asStr (mapGet claims "aud")).isSome ∧ aud = projectID then
            let iss := (asStr (mapGet claims "iss")).getD ""
            if (asStr (mapGet claims "iss")).isSome ∧ iss = issuer then
              let sub := (asStr (mapGet claims "sub")).getD ""
              let userID := (asStr (mapGet claims "user_id")).getD ""
              if sub = "" ∨ userID = "" ∨ sub ≠ userID then
                Except.error (GoErr.msg
                  ("auth: invalid sub or user_id (" ++ goQuote sub ++ " / " ++
                    goQuote userID ++ ")"))
              else
                Except.ok
                  { ID := userID
                    SignInProvider :=
                      (asStr (mapGet claims "sign_in_provider")).getD ""
                    EmailVerified :=
                      (asBool (mapGet claims "email_verified")).getD false
                    Email := (asStr (mapGet claims "email")).getD "" }
            else
              Except.error (GoErr.msg
                ("auth: unexpected issuer (" ++ goQuote iss ++ ")"))
          else
            Except.error (GoErr.msg
              ("auth: unexpected project ID (" ++ goQuote aud ++ ")"))

/-- `Verifier.Verify`: structural checks, then key resolution against the
cache view, then the engine's signature check, then claims validation.
`projectID` determines the expected issuer exactly as `NewVerifier` does.
`ptok` is the external engine's `jws.ParseCompact` result. -/
def Verify (projectID : String) (cv : CacheView) (now : Int)
    (ptok : Except String Tok) : Except GoErr User :=
  match ptok with
  | Except.error e => Except.error (GoErr.msg ("auth: parse error: " ++ e))
  | Except.ok tok =>
    let algV := asStr (mapGet tok.header "alg")
    if algV ≠ some "RS256" then
      Except.error (GoErr.msg
        ("auth: alg is " ++ algV.getD "" ++ ", not RS256"))
    else
      match asStr (mapGet tok.header "kid") with
      | none => Except.error (GoErr.msg "auth: invalid kid")
      | some kid =>
        match resolveCerts cv with
        | Except.error e => Except.error e
        | Except.ok certs =>
          match lookupKey certs kid with
          | none => Except.error (GoErr.msg ("auth: unknown kid: " ++ kid))
          | some key =>
            match tok.sigCheck key with
            | some m =>
              Except.error (GoErr.msg ("auth: verification failure: " ++ m))
            | none =>
              match tok.payload with
              | none =>
                Except.error (GoErr.msg "auth: unexpected payload type")
              | some claims =>
                verifyClaims projectID
                  ("https://securetoken.google.com/" ++ projectID) now claims

/-- A protected header carrying the supported algorithm and key id `k`. -/
def goodHeader : List (String × JVal) :=
  [("alg", JVal.str "RS256"), ("kid", JVal.str "k")]

/-- A claims payload that passes every check of `Verify` for project `pid`
at any instant in `[999, 2000]`. -/
def goodClaims : List (String × JVal) :=
  [("exp", JVal.num 2000), ("iat", JVal.num 999), ("aud", JVal.str "pid"),
    ("iss", JVal.str "https://securetoken.google.com/pid"),
    ("sub", JVal.str "u"), ("user_id", JVal.str "u")]

/-- Assemble a parsed token whose signature check always succeeds. -/
def mkTok (hdr : List (String × JVal)) (pl : Option (List (String × JVal))) :
    Tok :=
  { header := hdr, payload := pl, sigCheck := fun _ => none }

/-- A cache view with one published key `k` and the first load completed. -/
def goodView : CacheView :=
  { certs := [("k", 7)], haveCertsClosed := true,
    wait := WaitOutcome.canceled }

/-- A cold cache view: nothing published, first load pending, and any wait
resolved by cancellation of the caller's context. -/
def coldCanceledView : CacheView :=
  { certs := [], haveCertsClosed := false, wait := WaitOutcome.canceled }

/-- `goodClaims` extended with all three optional identity claims. -/
def richClaims : List (String × JVal) :=
  ("email", JVal.str "foo@example.com") ::
    ("email_verified", JVal.boolean true) ::
    ("sign_in_provider", JVal.str "password") :: goodClaims

/-- The invariant the refresh loop maintains: while `haveCerts` is still
open the snapshot is empty, and `firstFetch` mirrors the signal flag. -/
def CacheInv (s : CacheState) : Prop :=
  (s.signaled = false → s.certs = []) ∧ s.firstFetch = !s.signaled

lemma cacheInv_init : CacheInv initState := by
  constructor <;> simp [initState]

lemma cacheInv_step (s : CacheState)
    (r : Except Unit (List (String × Nat) × Int)) (h : CacheInv s) :
    CacheInv (loopStep s r).1 := by
  obtain ⟨h1, h2⟩ := h
  cases r with
  | ok p =>
    obtain ⟨certs, expiry⟩ := p
    by_cases hc : s.firstFetch = true ∧ certs.length > 0
    · simp [loopStep, hc, CacheInv]
    · simp only [loopStep, if_neg hc]
      refine ⟨fun hsig => ?_, h2⟩
      have hff : s.firstFetch = true := by rw [h2, hsig]; rfl
      have hlen : ¬ certs.length > 0 := fun hl => hc ⟨hff, hl⟩
      exact List.length_eq_zero.mp (Nat.eq_zero_of_not_pos hlen)
  | error e =>
    by_cases hc : s.certs.length > 0
    · simpa [loopStep, hc, CacheInv] using ⟨h1, h2⟩
    · simp only [loopStep, if_neg hc]
      exact ⟨h1, h2⟩

lemma run_inv (l : List (Except Unit (List (String × Nat) × Int))) :
    ∀ s : CacheState, CacheInv s → CacheInv (run s l) := by
  induction l with
  | nil => intro s h; exact h
  | cons r rs ih => intro s h; exact ih _ (cacheInv_step s r h)

lemma reachable_inv (s : CacheState) (h : Reachable s) : CacheInv s := by
  obtain ⟨l, hl⟩ := h
  exact hl ▸ run_inv l initState cacheInv_init

lemma int64wrap_eq_self (z : Int) (h1 : -(2 ^ 63) ≤ z) (h2 : z < 2 ^ 63) :
    int64wrap z = z := by
  unfold int64wrap
  have h3 : (0 : Int) ≤ z + 2 ^ 63 := by linarith
  have h4 : z + 2 ^ 63 < 2 ^ 64 := by
    have he : (2 : Int) ^ 64 = 2 ^ 63 + 2 ^ 63 := by norm_num
    linarith
  rw [Int.emod_eq_of_lt h3 h4]
  ring

lemma runDelays_err_run (k : Nat) (c ff : Bool) :
    ∀ f : Int, 0 < f → 2 ^ k * f < 2 ^ 63 →
      runDelays ⟨[], c, ff, f⟩ (List.replicate k (Except.error ())) =
        (List.range k).map (fun i => 2 ^ i * f) := by
  induction k with
  | zero => intro f _ _; rfl
  | succ n ih =>
    intro f hf hk
    have h2n : (2 : Int) ≤ 2 ^ (n + 1) := by
      calc (2 : Int) = 2 ^ 1 := (pow_one 2).symm
        _ ≤ 2 ^ (n + 1) := pow_le_pow_right₀ (by norm_num) (by omega)
    have h2f : int64wrap (2 * f) = 2 * f := by
      apply int64wrap_eq_self
      · linarith
      · nlinarith
    have hstep : loopStep ⟨[], c, ff, f⟩ (Except.error ()) =
        (⟨[], c, ff, int64wrap (2 * f)⟩, f) := rfl
    rw [List.replicate_succ]
    simp only [runDelays, hstep, h2f]
    have hk2 : 2 ^ n * (2 * f) < 2 ^ 63 := by
      have hp : (2 : Int) ^ n * (2 * f) = 2 ^ (n + 1) * f := by
        rw [pow_succ]; ring
      rw [hp]; exact hk
    rw [ih (2 * f) (by linarith) hk2]
    rw [List.range_succ_eq_map, List.map_cons, List.map_map]
    have hfun : (fun i => (2 : Int) ^ i * (2 * f)) =
        (fun i : Nat => (2 : Int) ^ i * f) ∘ Nat.succ := by
      funext i
      simp only [Function.comp, pow_succ]
      ring
    rw [hfun]
    congr 1
    ring

lemma parseAllCerts_error (pem : String → Option Nat) (kid cert : String) :
    ∀ raw : List (String × String), (kid, cert) ∈ raw → pem cert = none →
      parseAllCerts pem raw = Except.error () := by
  intro raw
  induction raw with
  | nil => intro h _; cases h
  | cons hd tl ih =>
    intro hmem hbad
    obtain ⟨k2, c2⟩ := hd
    rcases List.mem_cons.mp hmem with heq | htl
    · have hc : c2 = cert := (congrArg Prod.snd heq).symm
      simp [parseAllCerts, hc, hbad]
    · have hrest := ih htl hbad
      simp only [parseAllCerts, hrest]
      cases pem c2 <;> rfl

lemma loopStep_error_certs (s : CacheState) :
    ((loopStep s (Except.error ())).1).certs = s.certs := by
  by_cases h : s.certs.length > 0 <;> simp [loopStep, h]

lemma lookupKey_some_ne_zero {certs : List (String × Nat)} {kid : String}
    {key : Nat} (h : lookupKey certs kid = some key) : certs.length ≠ 0 := by
  intro hlen
  rw [List.length_eq_zero.mp hlen] at h
  simp [lookupKey] at h

/-- C1: the claimed invariant fails in the code. A fetch that succeeds but
parses to zero usable keys is not treated as a failure: `fetchCertLoop`
assigns `v.certs = certs` unconditionally on success (only the `haveCerts`
close is guarded by `len(certs) > 0`), so after a non-empty snapshot has
been published and signalled, a later successful fetch decoding to zero
keys replaces the published snapshot with the empty one. -/
theorem publishedSnapshotBecomesEmpty :
    (run initState [Except.ok ([("kid1", 1)], defaultExpiry)]).certs =
      [("kid1", 1)] ∧
    (run initState [Except.ok ([("kid1", 1)], defaultExpiry)]).signaled =
      true ∧
    (run initState [Except.ok ([("kid1", 1)], defaultExpiry),
        Except.ok ([], defaultExpiry)]).certs = [] ∧
    (run initState [Except.ok ([("kid1", 1)], defaultExpiry),
        Except.ok ([], defaultExpiry)]).signaled = true := by
  decide

/-- C2: with a previously loaded snapshot still present, a failed fetch is
rescheduled after the zero duration carried by the failed `fetchCerts`
result (`return nil, 0, err`), i.e. an immediate retry — not the 10-minute
default cadence the claim states. -/
theorem warmFailureRetriesImmediately :
    fetchCerts (fun _ => some 1) none = Except.error () ∧
    (run initState [Except.ok ([("kid1", 1)], defaultExpiry)]).certs.length
      > 0 ∧
    (loopStep (run initState [Except.ok ([("kid1", 1)], defaultExpiry)])
        (fetchCerts (fun _ => some 1) none)).2 = 0 ∧
    (0 : Int) ≠ defaultExpiry := by
  exact ⟨rfl, by decide, by decide, by decide⟩

/-- C3 (counterexample): the failure for an expired token is a bare
formatted message string — `GoErr.msg` models the `errors.New` /
`fmt.Errorf` values the source produces — not a member of any enumerated
error-kind type, so this failure IS surfaced as a generic message string
alone, contrary to the claim. -/
theorem verifyFailureIsBareMessage :
    Verify "pid" goodView 3000
        (Except.ok (mkTok goodHeader (some goodClaims))) =
      Except.error (GoErr.msg "auth: expired token") := by
  rfl

/-- C3 (amended): every `Verify` failure is surfaced as a generic message
string built by `errors.New` / `fmt.Errorf` — except context cancellation,
which returns the context's sentinel error — and the messages of the
failure causes are pairwise distinct, so callers can branch only by
inspecting message text. -/
theorem verifyFailuresDistinctMessages :
    Verify "pid" goodView 1500 (Except.error "eof") =
      Except.error (GoErr.msg "auth: parse error: eof") ∧
    Verify "pid" goodView 1500 (Except.ok (mkTok
        [("alg", JVal.str "HS256"), ("kid", JVal.str "k")]
        (some goodClaims))) =
      Except.error (GoErr.msg "auth: alg is HS256, not RS256") ∧
    Verify "pid" goodView 1500 (Except.ok (mkTok [("alg", JVal.str "RS256")]
        (some goodClaims))) =
      Except.error (GoErr.msg "auth: invalid kid") ∧
    Verify "pid" goodView 1500 (Except.ok (mkTok
        [("alg", JVal.str "RS256"), ("kid", JVal.str "zz")]
        (some goodClaims))) =
      Except.error (GoErr.msg "auth: unknown kid: zz") ∧
    Verify "pid" goodView 1500 (Except.ok
        { header := goodHeader, payload := some goodClaims,
          sigCheck := fun _ => some "crypto/rsa: verification error" }) =
      Except.error (GoErr.msg
        "auth: verification failure: crypto/rsa: verification error") ∧
    Verify "pid" goodView 3000
        (Except.ok (mkTok goodHeader (some goodClaims))) =
      Except.error (GoErr.msg "auth: expired token") ∧
    Verify "pid" goodView 500
        (Except.ok (mkTok goodHeader (some goodClaims))) =
      Except.error (GoErr.msg "auth: token issued in the future") ∧
    Verify "pid" goodView 1500 (Except.ok (mkTok goodHeader
        (some (("aud", JVal.str "other") :: goodClaims)))) =
      Except.error (GoErr.msg "auth: unexpected project ID (\"other\")") ∧
    Verify "pid" goodView 1500 (Except.ok (mkTok goodHeader
        (some (("iss", JVal.str "bad") :: goodClaims)))) =
      Except.error (GoErr.msg "auth: unexpected issuer (\"bad\")") ∧
    Verify "pid" goodView 1500 (Except.ok (mkTok goodHeader
        (some (("sub", JVal.str "a") :: ("user_id", JVal.str "b") ::
          goodClaims)))) =
      Except.error
        (GoErr.msg "auth: invalid sub or user_id (\"a\" / \"b\")") ∧
    Verify "pid" coldCanceledView 1500
        (Except.ok (mkTok goodHeader (some goodClaims))) =
      Except.error GoErr.ctxCanceled ∧
    [GoErr.msg "auth: parse error: eof",
      GoErr.msg "auth: alg is HS256, not RS256",
      GoErr.msg "auth: invalid kid",
      GoErr.msg "auth: unknown kid: zz",
      GoErr.msg "auth: verification failure: crypto/rsa: verification error",
      GoErr.msg "auth: expired token",
      GoErr.msg "auth: token issued in the future",
      GoErr.msg "auth: unexpected project ID (\"other\")",
      GoErr.msg "auth: unexpected issuer (\"bad\")",
      GoErr.msg "auth: invalid sub or user_id (\"a\" / \"b\")",
      GoErr.ctxCanceled].Nodup := by
  exact ⟨rfl, rfl, rfl, rfl, rfl, rfl, rfl, rfl, rfl, rfl, rfl, by decide⟩

/-- C4: a token whose `exp` equals the observed `now` is accepted by the
code — `exp.Before(now)` is false at equality, so the check only rejects
`exp` strictly in the past — whereas the claim (and the quoted requirement
in the source comment, "must be in the future") demands rejection as
`Expired`. -/
theorem expEqualToNowIsAccepted :
    Verify "pid" goodView 2000
        (Except.ok (mkTok goodHeader (some goodClaims))) =
      Except.ok (User.mk "u" "" false "") ∧
    (Except.ok (User.mk "u" "" false "") : Except GoErr User) ≠
      Except.error (GoErr.msg "auth: expired token") := by
  exact ⟨rfl, fun h => Except.noConfusion h⟩

/-- C5 (counterexample): a successful fetch does not reset the back-off.
After one cold-start failure (1s wait) and a successful fetch (decoding to
zero keys, so the cache is still unusable), the next cold-start failure
waits 2s — the doubling variable carried over — not the 1s a reset pattern
would produce. -/
theorem backoffNotResetBySuccess :
    runDelays initState [Except.error (), Except.ok ([], defaultExpiry),
        Except.error ()] = [goSecond, defaultExpiry, 2 * goSecond] ∧
    (2 * goSecond : Int) ≠ goSecond := by
  decide

/-- C5 (amended): on consecutive cold-start failures from the initial state
the waits are exactly 1s, 2s, 4s, … (strict doubling; the bound 33 keeps
every `int64` doubling below 2^63 ns), and a successful fetch leaves the
back-off variable untouched, so the pattern is not reset by a success: a
later cold-start failure continues the doubling where it left off. -/
theorem coldStartBackoffDoubles :
    (∀ k : Nat, k ≤ 33 →
      runDelays initState (List.replicate k (Except.error ())) =
        (List.range k).map (fun i => 2 ^ i * goSecond)) ∧
    (∀ (s : CacheState) (certs : List (String × Nat)) (expiry : Int),
      ((loopStep s (Except.ok (certs, expiry))).1).failExpiry =
        s.failExpiry) := by
  constructor
  · intro k hk
    have h1 : (2 : Int) ^ k * goSecond ≤ 2 ^ 33 * goSecond := by
      have hp : (2 : Int) ^ k ≤ 2 ^ 33 := pow_le_pow_right₀ (by norm_num) hk
      have hg : (0 : Int) ≤ goSecond := by norm_num [goSecond]
      exact mul_le_mul_of_nonneg_right hp hg
    have h2 : (2 : Int) ^ 33 * goSecond < 2 ^ 63 := by norm_num [goSecond]
    exact runDelays_err_run k false true goSecond
      (by norm_num [goSecond]) (lt_of_le_of_lt h1 h2)
  · intro s certs expiry
    by_cases h : s.firstFetch = true ∧ certs.length > 0 <;>
      simp [loopStep, h]

/-- Witness for `coldStartBackoffDoubles`: three consecutive cold-start
failures wait 1s, 2s and 4s. -/
theorem coldStartBackoffDoubles_witness :
    runDelays initState (List.replicate 3 (Except.error ())) =
      [goSecond, 2 * goSecond, 4 * goSecond] := by
  rw [coldStartBackoffDoubles.1 3 (by norm_num)]
  decide

/-- C6: when the first load has never completed (`haveCerts` still open —
which by the loop invariant means the snapshot is empty), a `Verify` call
that passes the structural checks blocks on the first-load signal: if the
caller's context is cancelled first the result is the context's
cancellation error; otherwise the lookup is retried once against the
snapshot published by the first load, and a still-missing key id yields
the unknown-kid failure. -/
theorem coldLookupWaitsThenUnknownKid (s : CacheState) (hr : Reachable s)
    (hs : s.signaled = false) (w : WaitOutcome) (pid : String) (now : Int)
    (tok : Tok) (kid : String)
    (halg : asStr (mapGet tok.header "alg") = some "RS256")
    (hkid : asStr (mapGet tok.header "kid") = some kid) :
    (w = WaitOutcome.canceled →
      Verify pid ⟨s.certs, s.signaled, w⟩ now (Except.ok tok) =
        Except.error GoErr.ctxCanceled) ∧
    (∀ certs, w = WaitOutcome.loaded certs → lookupKey certs kid = none →
      Verify pid ⟨s.certs, s.signaled, w⟩ now (Except.ok tok) =
        Except.error (GoErr.msg ("auth: unknown kid: " ++ kid))) := by
  have hcerts : s.certs = [] := (reachable_inv s hr).1 hs
  constructor
  · rintro rfl
    simp [Verify, halg, hkid, resolveCerts, hcerts, hs]
  · rintro certs rfl hlk
    simp [Verify, halg, hkid, resolveCerts, hcerts, hs, hlk]

/-- Witness for `coldLookupWaitsThenUnknownKid`: the initial state with a
cancelled wait, and with a first load publishing a key set that misses the
requested id. -/
theorem coldLookupWaitsThenUnknownKid_witness :
    Verify "pid" ⟨initState.certs, initState.signaled, WaitOutcome.canceled⟩
        0 (Except.ok (mkTok goodHeader (some goodClaims))) =
      Except.error GoErr.ctxCanceled ∧
    Verify "pid" ⟨initState.certs, initState.signaled,
          WaitOutcome.loaded [("other", 5)]⟩
        0 (Except.ok (mkTok goodHeader (some goodClaims))) =
      Except.error (GoErr.msg ("auth: unknown kid: " ++ "k")) := by
  constructor
  · exact (coldLookupWaitsThenUnknownKid initState ⟨[], rfl⟩ rfl
      WaitOutcome.canceled "pid" 0 (mkTok goodHeader (some goodClaims)) "k"
      rfl rfl).1 rfl
  · exact (coldLookupWaitsThenUnknownKid initState ⟨[], rfl⟩ rfl
      (WaitOutcome.loaded [("other", 5)]) "pid" 0
      (mkTok goodHeader (some goodClaims)) "k" rfl rfl).2
      [("other", 5)] rfl rfl

/-- C7 (counterexample): `max-age=20000000000` — well formed and
non-negative — does not yield a 20000000000-second refresh interval:
`time.Duration(seconds) * time.Second` wraps in `int64` arithmetic,
producing a positive wrapped interval (about 49 years), which is also not
the 10-minute default. -/
theorem maxAgeOverflowWraps :
    parseMaxAge "max-age=20000000000" = 1553255926290448384 ∧
    (1553255926290448384 : Int) ≠ 20000000000 * goSecond ∧
    (1553255926290448384 : Int) ≠ defaultExpiry := by
  decide

/-- C7 (amended): for a single well-formed `max-age` directive the next
interval is the directive's value in seconds converted to a 64-bit
nanosecond duration (multiplied by 10^9 and wrapped modulo 2^64 into the
signed range); a negative conversion result — and an absent or unparsable
directive — falls back to the fixed 10-minute default. -/
theorem maxAgeIntervalIsWrappedSeconds :
    (∀ (p : String) (v : Int), goSplitComma p = [p] → goTrim p = p →
      goHasPfx p "max-age=" = true → goAtoi (goDrop p 8) = some v →
      parseMaxAge p =
        if int64wrap (v * goSecond) < 0 then defaultExpiry
        else int64wrap (v * goSecond)) ∧
    parseMaxAge "" = defaultExpiry ∧
    parseMaxAge "max-age=bogus" = defaultExpiry ∧
    parseMaxAge "max-age=-5" = defaultExpiry ∧
    parseMaxAge "max-age=120" = 120 * goSecond := by
  refine ⟨?_, by decide, by decide, by decide, by decide⟩
  intro p v hsplit htrim hpfx hatoi
  unfold parseMaxAge
  rw [hsplit]
  simp only [maxAgeLoop, htrim, hpfx, if_true, hatoi]

/-- Witness for `maxAgeIntervalIsWrappedSeconds` at `max-age=300`. -/
theorem maxAgeIntervalIsWrappedSeconds_witness :
    parseMaxAge "max-age=300" = 300 * goSecond := by
  rw [maxAgeIntervalIsWrappedSeconds.1 "max-age=300" 300 (by decide)
    (by decide) (by decide) (by decide)]
  decide

/-- C8: a token that passes every structural, signature and claims check
yields an identity whose stable id is the subject claim (equal to the
`user_id` claim the code copies) and whose optional email, email-verified
and sign-in-provider fields are the corresponding claims, with missing or
wrong-typed optional values defaulting to the empty string or `false` —
the defaults never fail the call. -/
theorem validTokenYieldsIdentity (pid : String) (cv : CacheView) (now : Int)
    (tok : Tok) (kid : String) (key : Nat) (claims : List (String × JVal))
    (exp iat : Int) (sub : String)
    (halg : asStr (mapGet tok.header "alg") = some "RS256")
    (hkid : asStr (mapGet tok.header "kid") = some kid)
    (hkey : lookupKey cv.certs kid = some key)
    (hsig : tok.sigCheck key = none)
    (hpl : tok.payload = some claims)
    (hexp : asNum (mapGet claims "exp") = some exp)
    (hexpFut : ¬ exp < now)
    (hiat : asNum (mapGet claims "iat") = some iat)
    (hiatPast : ¬ now < iat)
    (haud : asStr (mapGet claims "aud") = some pid)
    (hiss : asStr (mapGet claims "iss") =
      some ("https://securetoken.google.com/" ++ pid))
    (hsub : asStr (mapGet claims "sub") = some sub)
    (huid : asStr (mapGet claims "user_id") = some sub)
    (hne : sub ≠ "") :
    Verify pid cv now (Except.ok tok) = Except.ok
      { ID := sub
        SignInProvider := (asStr (mapGet claims "sign_in_provider")).getD ""
        EmailVerified := (asBool (mapGet claims "email_verified")).getD false
        Email := (asStr (mapGet claims "email")).getD "" } := by
  have hres : resolveCerts cv = Except.ok cv.certs := by
    unfold resolveCerts
    rw [if_neg (lookupKey_some_ne_zero hkey)]
  simp [Verify, halg, hkid, hres, hkey, hsig, hpl, verifyClaims, hexp,
    hexpFut, hiat, hiatPast, haud, hiss, hsub, huid, hne]

/-- Witness for `validTokenYieldsIdentity` on a token carrying all three
optional claims. -/
theorem validTokenYieldsIdentity_witness :
    Verify "pid" goodView 1500
        (Except.ok (mkTok goodHeader (some richClaims))) =
      Except.ok (User.mk "u" "password" true "foo@example.com") := by
  have h := validTokenYieldsIdentity "pid" goodView 1500
    (mkTok goodHeader (some richClaims)) "k" 7 richClaims 2000 999 "u"
    rfl rfl rfl rfl rfl rfl (by decide) rfl (by decide) rfl rfl rfl rfl
    (by decide)
  rw [h]
  rfl

/-- C9: certificate parsing is all-or-nothing — if any single PEM value in
a decoded fetch body fails to parse, the whole `fetchCerts` call returns an
error, and the refresh-loop iteration consuming that result leaves the
published snapshot unchanged; no partial snapshot is published. -/
theorem certParseFailureAbortsFetch (pem : String → Option Nat)
    (rawCerts : List (String × String)) (cacheControl : String)
    (s : CacheState) (kid cert : String)
    (hmem : (kid, cert) ∈ rawCerts) (hbad : pem cert = none) :
    fetchCerts pem (some (Except.ok rawCerts, cacheControl)) =
      Except.error () ∧
    ((loopStep s (fetchCerts pem
        (some (Except.ok rawCerts, cacheControl)))).1).certs = s.certs := by
  have herr : fetchCerts pem (some (Except.ok rawCerts, cacheControl)) =
      Except.error () := by
    simp [fetchCerts, parseAllCerts_error pem kid cert rawCerts hmem hbad]
  refine ⟨herr, ?_⟩
  rw [herr]
  exact loopStep_error_certs s

/-- Witness for `certParseFailureAbortsFetch`: one of two certificates
fails to parse, so the fetch fails and an existing snapshot survives. -/
theorem certParseFailureAbortsFetch_witness :
    fetchCerts (fun c => if c = "goodpem" then some 1 else none)
        (some (Except.ok [("a", "goodpem"), ("b", "badpem")],
          "max-age=120")) = Except.error () ∧
    ((loopStep initState (fetchCerts
        (fun c => if c = "goodpem" then some 1 else none)
        (some (Except.ok [("a", "goodpem"), ("b", "badpem")],
          "max-age=120")))).1).certs = initState.certs := by
  exact certParseFailureAbortsFetch (fun c => if c = "goodpem" then some 1
    else none) [("a", "goodpem"), ("b", "badpem")] "max-age=120" initState
    "b" "badpem" (by decide) (by decide)

/-- C10: a parse failure, an unsupported algorithm, or a missing key id is
rejected before the cache is consulted: the result is the corresponding
error and is identical for any two cache views — in particular for a cold,
never-loaded cache whose wait would be cancelled — so no such call ever
blocks on the first-load signal or depends on the cache's state. -/
theorem structuralFailuresIgnoreCache (pid : String) (cv cv2 : CacheView)
    (now : Int) :
    (∀ e : String,
      Verify pid cv now (Except.error e) =
        Except.error (GoErr.msg ("auth: parse error: " ++ e)) ∧
      Verify pid cv now (Except.error e) =
        Verify pid cv2 now (Except.error e)) ∧
    (∀ tok : Tok, asStr (mapGet tok.header "alg") ≠ some "RS256" →
      Verify pid cv now (Except.ok tok) =
        Except.error (GoErr.msg ("auth: alg is " ++
          (asStr (mapGet tok.header "alg")).getD "" ++ ", not RS256")) ∧
      Verify pid cv now (Except.ok tok) =
        Verify pid cv2 now (Except.ok tok)) ∧
    (∀ tok : Tok, asStr (mapGet tok.header "alg") = some "RS256" →
      asStr (mapGet tok.header "kid") = none →
      Verify pid cv now (Except.ok tok) =
        Except.error (GoErr.msg "auth: invalid kid") ∧
      Verify pid cv now (Except.ok tok) =
        Verify pid cv2 now (Except.ok tok)) := by
  refine ⟨fun e => ⟨rfl, rfl⟩, fun tok halg => ?_, fun tok halg hkid => ?_⟩
  · constructor <;> simp [Verify, halg]
  · constructor <;> simp [Verify, halg, hkid]

/-- Witness for `structuralFailuresIgnoreCache` on a parse failure, a
wrong-algorithm token and a missing-kid token against a cold cache. -/
theorem structuralFailuresIgnoreCache_witness :
    Verify "pid" coldCanceledView 1500 (Except.error "eof2") =
      Except.error (GoErr.msg ("auth: parse error: " ++ "eof2")) ∧
    Verify "pid" coldCanceledView 1500
        (Except.ok (mkTok [("alg", JVal.str "none")] (some goodClaims))) =
      Except.error
        (GoErr.msg ("auth: alg is " ++ "none" ++ ", not RS256")) ∧
    Verify "pid" coldCanceledView 1500
        (Except.ok (mkTok [("alg", JVal.str "RS256")] (some goodClaims))) =
      Except.error (GoErr.msg "auth: invalid kid") := by
  refine ⟨((structuralFailuresIgnoreCache "pid" coldCanceledView goodView
    1500).1 "eof2").1, ?_, ?_⟩
  · exact ((structuralFailuresIgnoreCache "pid" coldCanceledView goodView
      1500).2.1 (mkTok [("alg", JVal.str "none")] (some goodClaims))
      (by decide)).1
  · exact ((structuralFailuresIgnoreCache "pid" coldCanceledView goodView
      1500).2.2 (mkTok [("alg", JVal.str "RS256")] (some goodClaims))
      rfl rfl).1
